import Mathlib

/-!
Verification of the karl logging library (lib/karl.js) against its
natural-language specification.  The JavaScript source is shallowly
embedded: pure functions become Lean functions, the module's mutable
globals (`logOptions`, `currentFormatter`, the console bindings, the
`setImmediate` queue) become an explicit state record, and the FIFO
deferred-task scheduler becomes a list processed in order.
-/

namespace Karl

/-- A JavaScript value as it appears in the argument lists handed to
`util.format` inside karl: a string, a (line-)number, or `null`. -/
inductive JsVal where
  | str : String → JsVal
  | num : Nat → JsVal
  | null : JsVal
deriving DecidableEq, Repr

/-- Rendering of a value for a `%s` placeholder in Node's `util.format`:
strings pass through, numbers print in decimal, `null` prints "null". -/
def jsToStr : JsVal → String
  | .str s => s
  | .num n => toString n
  | .null => "null"

/-- Rendering of a value for a `%d` placeholder in Node's `util.format`
(`String(Number(arg))`): numbers print in decimal, non-numeric strings
give "NaN", `null` coerces to 0. -/
def jsToNum : JsVal → String
  | .num n => toString n
  | .str _ => "NaN"
  | .null => "0"

/-- Core of the model of Node's `util.format`: walk the template,
substituting `%s`/`%d` placeholders by the next argument; leftover
arguments are appended space-separated (strings raw, as `util.format`
does for string arguments). -/
def runFormat : List Char → List JsVal → String
  | '%' :: 's' :: rest, a :: args => jsToStr a ++ runFormat rest args
  | '%' :: 'd' :: rest, a :: args => jsToNum a ++ runFormat rest args
  | c :: rest, args => String.singleton c ++ runFormat rest args
  | [], args => String.join (args.map (fun a => " " ++ jsToStr a))

/-- Model of Node's `util.format(template, ...args)`. -/
def utilFormat (template : String) (args : List JsVal) : String :=
  runFormat template.data args

/-- Model of `util.format.apply(util, parameters)` (karl.js line 367):
the first parameter, when it is a string, acts as the template. -/
def utilFormatArgs : List JsVal → String
  | [] => ""
  | .str f :: rest => utilFormat f rest
  | args => String.intercalate " " (args.map jsToStr)

/-- The `process` sub-record of a log event (karl.js lines 363-366). -/
structure ProcessInfo where
  name : String
  pid : Nat
deriving DecidableEq, Repr

/-- The log-event record built in `_log`'s deferred callback
(karl.js lines 359-372).  Nullable JavaScript fields are `Option`s. -/
structure LogEvent where
  timestamp : String
  level : String
  hostName : String
  process : ProcessInfo
  message : String
  fileName : Option String
  filePath : Option String
  lineNumber : Option Nat
  functionName : Option String
deriving DecidableEq, Repr

/-- The module-global `logOptions` record (karl.js lines 80-85 give the
defaults; `enrich` is the optional callback documented at line 437). -/
structure LogOptions where
  includeLocationInformation : Bool
  colorize : Bool
  redirectConsole : Bool
  json : Bool
  enrich : Option (LogEvent → LogEvent) := none

/-- `defaultLogOptions` (karl.js lines 80-85). -/
def defaultLogOptions : LogOptions :=
  { includeLocationInformation := true
    colorize := false
    redirectConsole := true
    json := true
    enrich := none }

/-- A user-supplied options object passed to `setOptions`: every
recognized key may be present or absent. -/
structure UserOptions where
  includeLocationInformation : Option Bool := none
  colorize : Option Bool := none
  redirectConsole : Option Bool := none
  json : Option Bool := none
  enrich : Option (LogEvent → LogEvent) := none

/-- `extend(targetObject, sourceObjects)` (karl.js lines 36-60),
specialized to its single call site `extend(options, defaultLogOptions)`:
the result takes every key present on `options`, and fills each key
missing from `options` with the value from `defaultLogOptions`. -/
def extend (options : UserOptions) (defaults : LogOptions) : LogOptions :=
  { includeLocationInformation :=
      options.includeLocationInformation.getD defaults.includeLocationInformation
    colorize := options.colorize.getD defaults.colorize
    redirectConsole := options.redirectConsole.getD defaults.redirectConsole
    json := options.json.getD defaults.json
    enrich := options.enrich.orElse (fun _ => defaults.enrich) }

/-- `colors._colorize(msg, color)` (karl.js lines 94-98) with the two
numeric codes of `util.inspect.colors[color]` passed explicitly. -/
def colorsColorize (msg : String) (startCode stopCode : Nat) : String :=
  "\u001b[" ++ toString startCode ++ "m" ++ msg ++ "\u001b[" ++ toString stopCode ++ "m"

/-- The `logColors` level-to-color table (karl.js lines 112-119) applied
to a message: TRACE is green (codes 32/39), WARN yellow (33/39), ERROR
and FATAL red (31/39); DEBUG and INFO use `defaultTextColor`, the
identity.  The codes are those of `util.inspect.colors`. -/
def logColors (level : String) (msg : String) : String :=
  if level = "TRACE" then colorsColorize msg 32 39
  else if level = "WARN" then colorsColorize msg 33 39
  else if level = "ERROR" then colorsColorize msg 31 39
  else if level = "FATAL" then colorsColorize msg 31 39
  else msg

/-- JSON string escaping as performed by `JSON.stringify` on the
characters that can occur in karl's event fields. -/
def jsonEscapeChar (c : Char) : String :=
  if c = '"' then "\\\""
  else if c = '\\' then "\\\\"
  else if c = '\n' then "\\n"
  else if c = '\r' then "\\r"
  else if c = '\t' then "\\t"
  else String.singleton c

/-- A JSON string literal for `s`, as `JSON.stringify` produces. -/
def jsonQuote (s : String) : String :=
  "\"" ++ String.join (s.data.map jsonEscapeChar) ++ "\""

/-- JSON rendering of a nullable string field. -/
def jsonOptStr : Option String → String
  | some s => jsonQuote s
  | none => "null"

/-- JSON rendering of a nullable number field. -/
def jsonOptNum : Option Nat → String
  | some n => toString n
  | none => "null"

/-- `jsonFormatter(message)` = `JSON.stringify(message)` (karl.js lines
132-134): one-line JSON with fields in the insertion order of the event
record built in `_log`.  Formatters take the options in force at
emission time because `textFormatter` reads the mutable global
`logOptions`; `jsonFormatter` ignores them. -/
def jsonFormatter (_options : LogOptions) (message : LogEvent) : String :=
  "\x7b\"timestamp\":" ++ jsonQuote message.timestamp ++
  ",\"level\":" ++ jsonQuote message.level ++
  ",\"hostName\":" ++ jsonQuote message.hostName ++
  ",\"process\":\x7b\"name\":" ++ jsonQuote message.process.name ++
  ",\"pid\":" ++ toString message.process.pid ++ "\x7d" ++
  ",\"message\":" ++ jsonQuote message.message ++
  ",\"fileName\":" ++ jsonOptStr message.fileName ++
  ",\"filePath\":" ++ jsonOptStr message.filePath ++
  ",\"lineNumber\":" ++ jsonOptNum message.lineNumber ++
  ",\"functionName\":" ++ jsonOptStr message.functionName ++ "\x7d"

/-- Lift a nullable string field to a `util.format` argument. -/
def optJs : Option String → JsVal
  | some s => .str s
  | none => .null

/-- Lift a nullable number field to a `util.format` argument. -/
def optNumJs : Option Nat → JsVal
  | some n => .num n
  | none => .null

/-- `textFormatter(message)` (karl.js lines 137-148): the exact
`util.format` calls of the source, reading
`logOptions.includeLocationInformation` at format time. -/
def textFormatter (options : LogOptions) (message : LogEvent) : String :=
  if options.includeLocationInformation then
    utilFormat "[%s] %s - %s - %s[%s@%s/%s(%d)]: %s"
      [JsVal.str message.level, JsVal.str message.timestamp, JsVal.str message.hostName,
       JsVal.str message.process.name, optJs message.functionName, optJs message.filePath,
       optJs message.fileName, optNumJs message.lineNumber, JsVal.str message.message]
  else
    utilFormat "[%s] %s - %s - %s: %s"
      [JsVal.str message.level, JsVal.str message.timestamp, JsVal.str message.hostName,
       JsVal.str message.process.name, JsVal.str message.message]

/-- `formatters.getFormatter(options)` (karl.js lines 155-157). -/
def getFormatter (options : LogOptions) : LogOptions → LogEvent → String :=
  if options.json then jsonFormatter else textFormatter

/-- `defaultFormatter` (karl.js line 165). -/
def defaultFormatter : LogOptions → LogEvent → String :=
  getFormatter defaultLogOptions

/-- A V8 `CallSite` as karl consumes it: the three accessors used in
`_log`'s deferred callback, each nullable. -/
structure CallSite where
  fileName : Option String
  lineNumber : Option Nat
  functionName : Option String
deriving DecidableEq, Repr

/-- `dummyTrace` (karl.js lines 194-198): every accessor returns null. -/
def dummyTrace : CallSite :=
  { fileName := none, lineNumber := none, functionName := none }

/-- A console binding: either an original (native) console function saved
at module load, identified by its channel name, or a karl logger method
bound by the interceptor, identified by its severity name.  The source's
identity test `console.log === defaultConsole.log` becomes equality of
these values. -/
inductive Binding where
  | native : String → Binding
  | karl : String → Binding
deriving DecidableEq, Repr

/-- The six console entry points karl touches. -/
structure ConsoleState where
  trace : Binding
  debug : Binding
  log : Binding
  info : Binding
  warn : Binding
  error : Binding
deriving DecidableEq, Repr

/-- The console object as it exists when the module loads, before any
redirection: every entry point holds its own native function. -/
def pristineConsole : ConsoleState :=
  { trace := .native "trace", debug := .native "debug", log := .native "log"
    info := .native "info", warn := .native "warn", error := .native "error" }

/-- `defaultConsole` (karl.js lines 388-396): the saved originals.  The
object literal initializes `debug` to `console.log`, and the subsequent
loop copies `trace`, `log`, `info`, `warn`, `error` from the console —
`debug` is not in that list, so the saved `debug` binding stays the
original `console.log` function. -/
def defaultConsole : ConsoleState :=
  { trace := .native "trace", debug := .native "log", log := .native "log"
    info := .native "info", warn := .native "warn", error := .native "error" }

/-- `redirectConsole(enable)` (karl.js lines 399-421) as a function on
the console bindings.  Enabling rebinds `console.log` to `karl.info` and
`trace`/`debug`/`info`/`warn`/`error` to the same-named karl methods,
guarded by `console.log === defaultConsole.log`; disabling restores all
six entries from `defaultConsole`, guarded by the reverse test. -/
def redirectConsole (enable : Bool) (c : ConsoleState) : ConsoleState :=
  if enable then
    if c.log = defaultConsole.log then
      { trace := .karl "trace", debug := .karl "debug", log := .karl "info"
        info := .karl "info", warn := .karl "warn", error := .karl "error" }
    else c
  else
    if c.log ≠ defaultConsole.log then defaultConsole else c

/-- The host environment the module captures or consults: `os.hostname()`,
the application name and pid fixed at startup (karl.js lines 64-68), the
working directory, and the `path` module's operations. -/
structure Env where
  hostname : String
  applicationName : String
  pid : Nat
  cwd : String
  basename : String → String
  dirname : String → String
  relative : String → String → String

/-- The data a `_log` call captures synchronously before scheduling its
deferred callback (karl.js lines 349-353): the resolved trace (or
`dummyTrace`), the timestamp, the formatter in force, and the raw
argument list. -/
structure DeferredTask where
  trace : Option CallSite
  timestamp : String
  format : LogOptions → LogEvent → String
  args : List JsVal
  level : String

/-- A task sitting in the `setImmediate` queue: either a deferred log
emission or the deferred `process.kill` of the uncaught-exception
handler (karl.js lines 450-452). -/
inductive ScheduledTask where
  | log : DeferredTask → ScheduledTask
  | kill : String → ScheduledTask

/-- An observable effect of running one scheduled task: a write to
standard output, a signal raised against the process, or an uncaught
error thrown inside the callback. -/
inductive Action where
  | write : String → Action
  | kill : String → Action
  | crash : String → Action
deriving DecidableEq, Repr

/-- The module's mutable state: `logOptions` (karl.js line 122),
`currentFormatter` (line 172), the console bindings, and the FIFO queue
of tasks scheduled with `setImmediate`. -/
structure KarlState where
  logOptions : LogOptions
  currentFormatter : Option (LogOptions → LogEvent → String)
  console : ConsoleState
  queue : List ScheduledTask

/-- The event record assembled in `_log`'s deferred callback from a
non-null trace (karl.js lines 356-372). -/
def buildEvent (env : Env) (t : DeferredTask) (caller : CallSite) : LogEvent :=
  let fn := caller.fileName
  { timestamp := t.timestamp
    level := t.level
    hostName := env.hostname
    process := { name := env.applicationName, pid := env.pid }
    message := utilFormatArgs t.args
    fileName := fn.map env.basename
    filePath := fn.map (fun f => env.relative env.cwd (env.dirname f))
    lineNumber := caller.lineNumber
    functionName := some (caller.functionName.getD "<anonymous>") }

/-- The event after the optional `enrich` callback (karl.js lines 374-376). -/
def eventOf (env : Env) (options : LogOptions) (t : DeferredTask) (caller : CallSite) : LogEvent :=
  match options.enrich with
  | some e => e (buildEvent env t caller)
  | none => buildEvent env t caller

/-- The string a deferred log task writes: the formatted event plus a
newline, wrapped by `logColors[level]` when `options.colorize` holds
(karl.js lines 377-383).  Note the newline is appended before the
colorization wraps the message. -/
def renderTask (env : Env) (options : LogOptions) (t : DeferredTask) (caller : CallSite) : String :=
  let msg := t.format options (eventOf env options t caller) ++ "\n"
  if options.colorize then logColors t.level msg else msg

/-- Run one deferred log callback (karl.js lines 355-384).  The callback
begins with `caller.getFileName()` on the captured trace; when
`getStackInfo` produced no frame the trace is null and this very first
access throws a TypeError, so no write happens. -/
def runLogTask (env : Env) (options : LogOptions) (t : DeferredTask) : Except String String :=
  match t.trace with
  | none => .error "TypeError: cannot read getFileName of null"
  | some caller => .ok (renderTask env options t caller)

/-- Run one scheduled task, producing its observable action. -/
def runTask (env : Env) (options : LogOptions) : ScheduledTask → Action
  | .log t =>
      match runLogTask env options t with
      | .ok m => .write m
      | .error e => .crash e
  | .kill sig => .kill sig

/-- Drain the `setImmediate` queue in FIFO order, collecting the action
of each task.  `options` is the configuration in force while the queue
runs (no reconfiguration happens mid-drain). -/
def drain (env : Env) (options : LogOptions) (s : KarlState) : List Action :=
  s.queue.map (runTask env options)

/-- One `_log` invocation's synchronous part (karl.js lines 348-355):
resolve the trace (the caller's frame when location information is on,
`dummyTrace` otherwise), capture the timestamp, the current formatter
(`currentFormatter || defaultFormatter`) and the arguments, and append
one deferred task to the scheduler queue.  `frame` is what
`stackTrace.get(_log)` would return for this call. -/
def mkTask (options : LogOptions) (currentFormatter : Option (LogOptions → LogEvent → String))
    (level : String) (frame : Option CallSite) (timestamp : String) (args : List JsVal) :
    DeferredTask :=
  { trace := if options.includeLocationInformation then frame else some dummyTrace
    timestamp := timestamp
    format := currentFormatter.getD defaultFormatter
    args := args
    level := level }

/-- The state transition of one `_log` invocation. -/
def logCall (level : String) (frame : Option CallSite) (timestamp : String)
    (args : List JsVal) (s : KarlState) : KarlState :=
  { s with queue := s.queue ++
      [.log (mkTask s.logOptions s.currentFormatter level frame timestamp args)] }

/-- `setOptions(options)` (karl.js lines 441-445): replace `logOptions`
by `extend(options, defaultLogOptions)`, re-drive the console
interceptor from the new `redirectConsole` flag, and recompute
`currentFormatter`. -/
def setOptions (options : UserOptions) (s : KarlState) : KarlState :=
  let o := extend options defaultLogOptions
  { s with
    logOptions := o
    console := redirectConsole o.redirectConsole s.console
    currentFormatter := some (getFormatter o) }

/-- The arguments of `karl.fatal("UncaughtException: ", err.stack)`. -/
def fatalArgsFor (errStack : String) : List JsVal :=
  [.str "UncaughtException: ", .str errStack]

/-- The `message` field of the uncaught-exception FATAL event. -/
def fatalMessage (errStack : String) : String :=
  utilFormatArgs (fatalArgsFor errStack)

/-- The `uncaughtException` handler (karl.js lines 448-453): call
`karl.fatal` — which enqueues the deferred write — then schedule, with
the same `setImmediate` mechanism and hence behind that write in FIFO
order, a `process.kill(process.pid, "SIGINT")`. -/
def uncaughtHandler (errStack : String) (frame : Option CallSite) (timestamp : String)
    (s : KarlState) : KarlState :=
  let s1 := logCall "FATAL" frame timestamp (fatalArgsFor errStack) s
  { s1 with queue := s1.queue ++ [.kill "SIGINT"] }

/-- The module-load state (karl.js lines 122, 172, 425-427): default
options, no current formatter yet, and the console already redirected
because `defaultLogOptions.redirectConsole` is true. -/
def initialState : KarlState :=
  { logOptions := defaultLogOptions
    currentFormatter := none
    console := redirectConsole defaultLogOptions.redirectConsole pristineConsole
    queue := [] }

/-- The process-wide V8 stack-trace configuration `getStackInfo`
mutates: `Error.stackTraceLimit` and `Error.prepareStackTrace` (the
latter abstracted to an identifying tag, `none` being the undefined
default). -/
structure ErrorConfig where
  stackTraceLimit : Nat
  prepareStackTrace : Option String
deriving DecidableEq, Repr

/-- What `Error.captureStackTrace(obj, limFn)` does on a given call:
either it captures a (possibly empty) list of frames above `limFn`, or
it throws. -/
inductive CaptureOutcome where
  | frames : List CallSite → CaptureOutcome
  | raises : String → CaptureOutcome

/-- `getStackInfo(limFn)` (karl.js lines 226-254) as a state transformer
on the shared `Error` configuration, following the source line by line:
save the limit and formatter, set the limit to 1, call
`Error.captureStackTrace` — the function has no try/finally, so if that
call throws the exception propagates immediately and none of the
remaining lines run — then install the capturing `prepareStackTrace`,
read `obj.stack` (which invokes it on the captured frames, leaving
`stackInfo = stack[0]`, null/undefined when there is no frame), restore
both saved values, and return `stackInfo`. -/
def getStackInfo (capture : CaptureOutcome) (ec : ErrorConfig) :
    Except String (Option CallSite) × ErrorConfig :=
  let saveLimit := ec.stackTraceLimit
  let savePrepare := ec.prepareStackTrace
  let ec1 : ErrorConfig := { ec with stackTraceLimit := 1 }
  match capture with
  | .raises e => (.error e, ec1)
  | .frames stack =>
      let stackInfo := stack.get? 0
      (.ok stackInfo, { stackTraceLimit := saveLimit, prepareStackTrace := savePrepare })

/-- The states of the module reachable from module load through its
public operations: reconfiguration, logging calls, and the
uncaught-exception handler. -/
inductive Reachable : KarlState → Prop where
  | init : Reachable initialState
  | reconfig (u : UserOptions) {s : KarlState} : Reachable s → Reachable (setOptions u s)
  | log (level : String) (frame : Option CallSite) (timestamp : String) (args : List JsVal)
      {s : KarlState} : Reachable s → Reachable (logCall level frame timestamp args s)
  | uncaught (errStack : String) (frame : Option CallSite) (timestamp : String)
      {s : KarlState} : Reachable s → Reachable (uncaughtHandler errStack frame timestamp s)

/-- One synchronous invocation of a per-level log method: the severity,
the frame the call-site resolver would produce for it, the timestamp,
and the argument list. -/
structure LogCall where
  level : String
  frame : Option CallSite
  timestamp : String
  args : List JsVal

/-- A sequence of log calls issued synchronously in one turn. -/
def invokeAll (calls : List LogCall) (s : KarlState) : KarlState :=
  calls.foldl (fun st c => logCall c.level c.frame c.timestamp c.args st) s

/-- A concrete host environment used to evaluate the pipeline on
specific inputs. -/
def env0 : Env :=
  { hostname := "localhost", applicationName := "karltest", pid := 26693,
    cwd := "/app", basename := fun f => f, dirname := fun f => f,
    relative := fun _ f => f }

/-- A concrete resolved call-site frame. -/
def demoFrame : CallSite :=
  { fileName := some "karltest.js", lineNumber := some 43, functionName := some "main" }

/-- Two back-to-back log calls issued in one synchronous turn. -/
def demoCalls : List LogCall :=
  [ { level := "INFO", frame := some demoFrame, timestamp := "2015-08-02T18:02:39.456Z",
      args := [.str "Created queue %d.", .num 3] },
    { level := "WARN", frame := some demoFrame, timestamp := "2015-08-02T18:02:39.457Z",
      args := [.str "low disk"] } ]

/-- A reconfiguration object with every recognized key omitted. -/
def emptyUserOptions : UserOptions := {}

/-- The reconfiguration object `{ colorize: true }`. -/
def onlyColorize : UserOptions := { colorize := some true }

/-- The reconfiguration object `{ includeLocationInformation: false,
redirectConsole: false }`, as the repository's own test suite uses to
exercise the location-disabled path. -/
def noLocUserOptions : UserOptions :=
  { includeLocationInformation := some false, redirectConsole := some false }

/-- The state after reconfiguring with location information disabled. -/
def noLocState : KarlState := setOptions noLocUserOptions initialState

/-- The deferred task of a WARN call made with location disabled: its
captured trace is `dummyTrace`. -/
def c6Task : DeferredTask :=
  mkTask noLocState.logOptions noLocState.currentFormatter "WARN" none
    "2015-08-02T18:02:39.456Z" [JsVal.str "Should have no location information."]

/-- The event that task emits. -/
def c6Event : LogEvent := eventOf env0 noLocState.logOptions c6Task dummyTrace

/-- The reconfiguration object `{ colorize: true, redirectConsole: false }`. -/
def colorUserOptions : UserOptions := { colorize := some true, redirectConsole := some false }

/-- The state after enabling colorization. -/
def colorState : KarlState := setOptions colorUserOptions initialState

/-- The frame of a concrete WARN call under colorization. -/
def c5Frame : CallSite :=
  { fileName := some "test.js", lineNumber := some 43, functionName := none }

/-- The deferred task of that WARN call. -/
def c5Task : DeferredTask :=
  mkTask colorState.logOptions colorState.currentFormatter "WARN" (some c5Frame)
    "2015-08-02T18:02:39.456Z" [JsVal.str "Should be in yellow."]

/-- The string that task writes to standard output. -/
def c5Out : String := renderTask env0 colorState.logOptions c5Task c5Frame

/-- The console bindings installed by an enable transition: `log` is
aliased to the INFO method, the five named channels to their same-named
karl methods. -/
def karlConsole : ConsoleState :=
  { trace := .karl "trace", debug := .karl "debug", log := .karl "info",
    info := .karl "info", warn := .karl "warn", error := .karl "error" }

theorem invokeAll_cons (c : LogCall) (cs : List LogCall) (s : KarlState) :
    invokeAll (c :: cs) s = invokeAll cs (logCall c.level c.frame c.timestamp c.args s) := rfl

theorem logCall_queue (lvl : String) (f : Option CallSite) (ts : String)
    (a : List JsVal) (s : KarlState) :
    (logCall lvl f ts a s).queue =
      s.queue ++ [ScheduledTask.log (mkTask s.logOptions s.currentFormatter lvl f ts a)] := rfl

theorem logCall_logOptions (lvl : String) (f : Option CallSite) (ts : String)
    (a : List JsVal) (s : KarlState) :
    (logCall lvl f ts a s).logOptions = s.logOptions := rfl

theorem logCall_currentFormatter (lvl : String) (f : Option CallSite) (ts : String)
    (a : List JsVal) (s : KarlState) :
    (logCall lvl f ts a s).currentFormatter = s.currentFormatter := rfl

/-- A synchronous burst of log calls only appends to the scheduler
queue, one task per call, in call order; the configuration and the
current formatter are untouched. -/
theorem invokeAll_spec (calls : List LogCall) (s : KarlState) :
    (invokeAll calls s).queue = s.queue ++
      calls.map (fun c => ScheduledTask.log
        (mkTask s.logOptions s.currentFormatter c.level c.frame c.timestamp c.args)) ∧
    (invokeAll calls s).logOptions = s.logOptions ∧
    (invokeAll calls s).currentFormatter = s.currentFormatter := by
  induction calls generalizing s with
  | nil => simp [invokeAll]
  | cons c cs ih =>
      obtain ⟨hq, ho, hf⟩ := ih (logCall c.level c.frame c.timestamp c.args s)
      simp only [logCall_queue, logCall_logOptions, logCall_currentFormatter] at hq ho hf
      refine ⟨?_, ?_, ?_⟩
      · rw [invokeAll_cons, hq, List.map_cons, List.append_assoc]
        rfl
      · rw [invokeAll_cons, ho]
      · rw [invokeAll_cons, hf]

/-- A task enqueued by a log call carries a non-null trace whenever
location information is disabled (then it is `dummyTrace`) or the
resolver produced a frame. -/
theorem mkTask_trace_isSome (opts : LogOptions) (cf : Option (LogOptions → LogEvent → String))
    (lvl : String) (f : Option CallSite) (ts : String) (a : List JsVal)
    (h : opts.includeLocationInformation = false ∨ f.isSome = true) :
    (mkTask opts cf lvl f ts a).trace.isSome = true := by
  unfold mkTask
  rcases h with h | h
  · simp [h]
  · by_cases hloc : opts.includeLocationInformation <;> simp [hloc, h]

/-- In every reachable module state, the formatter a log call captures
(`currentFormatter || defaultFormatter`) is exactly
`getFormatter(logOptions)`: `setOptions` keeps the two in sync and the
initial `null` formatter falls back to the default-options formatter. -/
theorem reachable_formatter {s : KarlState} (h : Reachable s) :
    s.currentFormatter.getD defaultFormatter = getFormatter s.logOptions := by
  induction h with
  | init => rfl
  | reconfig u _ _ => rfl
  | log lvl f ts a _ ih => exact ih
  | uncaught e f ts _ ih => exact ih

/-- One interceptor transition keeps the console bindings within the
two-element set consisting of the redirected bindings and the saved
originals. -/
theorem consoleStep_mem (e : Bool) (c : ConsoleState)
    (h : c = karlConsole ∨ c = defaultConsole) :
    redirectConsole e c = karlConsole ∨ redirectConsole e c = defaultConsole := by
  rcases h with h | h <;> subst h <;> cases e <;>
    simp [redirectConsole, defaultConsole, karlConsole]

/-- Any sequence of interceptor transitions keeps the console bindings
within that two-element set. -/
theorem foldl_console_mem (ops : List Bool) (c : ConsoleState)
    (h : c = karlConsole ∨ c = defaultConsole) :
    ops.foldl (fun st e => redirectConsole e st) c = karlConsole ∨
    ops.foldl (fun st e => redirectConsole e st) c = defaultConsole := by
  induction ops generalizing c with
  | nil => exact h
  | cons e es ih => exact ih _ (consoleStep_mem e c h)

/-- Claim C1: a sequence of N per-level log calls issued synchronously
in one turn enqueues exactly N deferred tasks; draining the FIFO
scheduler then yields exactly N actions, the i-th action being the
emission of the i-th call, and — provided the resolver produced a frame
for each call or location capture is disabled — every one of those
actions is a single write to standard output. -/
theorem c1_synchronous_calls_one_ordered_write_each (env : Env) (s : KarlState)
    (calls : List LogCall) (hq : s.queue = [])
    (hframe : ∀ c ∈ calls,
      s.logOptions.includeLocationInformation = false ∨ c.frame.isSome = true) :
    (drain env s.logOptions (invokeAll calls s)).length = calls.length ∧
    drain env s.logOptions (invokeAll calls s) =
      calls.map (fun c => runTask env s.logOptions
        (ScheduledTask.log
          (mkTask s.logOptions s.currentFormatter c.level c.frame c.timestamp c.args))) ∧
    ∀ a ∈ drain env s.logOptions (invokeAll calls s), ∃ m, a = Action.write m := by
  obtain ⟨hqueue, _, _⟩ := invokeAll_spec calls s
  have hd : drain env s.logOptions (invokeAll calls s) =
      calls.map (fun c => runTask env s.logOptions
        (ScheduledTask.log
          (mkTask s.logOptions s.currentFormatter c.level c.frame c.timestamp c.args))) := by
    unfold drain
    rw [hqueue, hq, List.nil_append, List.map_map]
    rfl
  refine ⟨by rw [hd, List.length_map], hd, ?_⟩
  intro a ha
  rw [hd] at ha
  obtain ⟨c, hc, rfl⟩ := List.mem_map.mp ha
  obtain ⟨caller, hcaller⟩ := Option.isSome_iff_exists.mp
    (mkTask_trace_isSome s.logOptions s.currentFormatter c.level c.frame c.timestamp c.args
      (hframe c hc))
  exact ⟨renderTask env s.logOptions
      (mkTask s.logOptions s.currentFormatter c.level c.frame c.timestamp c.args) caller,
    by simp [runTask, runLogTask, hcaller]⟩

/-- Witness for C1: two concrete back-to-back calls produce exactly two
actions. -/
theorem c1_witness :
    (drain env0 initialState.logOptions (invokeAll demoCalls initialState)).length =
      demoCalls.length :=
  (c1_synchronous_calls_one_ordered_write_each env0 initialState demoCalls rfl (by decide)).1

/-- Claim C2 (refuted, code bug): `getStackInfo` restores the prior
`Error.stackTraceLimit`/`Error.prepareStackTrace` on the normal path,
but it has no try/finally, so on the path where
`Error.captureStackTrace` throws the function exits with the depth
limit still clamped to 1 — with a prior limit of 10 the configuration
is left at 1, not restored. -/
theorem c2_stack_config_restore_skipped_when_capture_throws :
    (∀ (stack : List CallSite) (ec : ErrorConfig),
      (getStackInfo (CaptureOutcome.frames stack) ec).2 = ec) ∧
    (getStackInfo (CaptureOutcome.raises "RangeError: Maximum call stack size exceeded")
        { stackTraceLimit := 10, prepareStackTrace := none }).2 =
      { stackTraceLimit := 1, prepareStackTrace := none } ∧
    (getStackInfo (CaptureOutcome.raises "RangeError: Maximum call stack size exceeded")
        { stackTraceLimit := 10, prepareStackTrace := none }).2.stackTraceLimit ≠ 10 :=
  ⟨fun _ _ => rfl, rfl, by decide⟩

/-- Claim C3: `setOptions` merges the supplied object against the
documented defaults, not against the previously active configuration:
any recognized key omitted from the object comes out at its default
(independently of the prior state `s`), and in particular
`setOptions { colorize: true }` yields `includeLocationInformation`,
`redirectConsole`, `json` all `true` again. -/
theorem c3_setOptions_merges_against_defaults (u : UserOptions) (s : KarlState) :
    ((u.includeLocationInformation = none →
        (setOptions u s).logOptions.includeLocationInformation = true) ∧
     (u.colorize = none → (setOptions u s).logOptions.colorize = false) ∧
     (u.redirectConsole = none → (setOptions u s).logOptions.redirectConsole = true) ∧
     (u.json = none → (setOptions u s).logOptions.json = true)) ∧
    ((setOptions onlyColorize s).logOptions.includeLocationInformation = true ∧
     (setOptions onlyColorize s).logOptions.redirectConsole = true ∧
     (setOptions onlyColorize s).logOptions.json = true ∧
     (setOptions onlyColorize s).logOptions.colorize = true) := by
  refine ⟨⟨fun h => ?_, fun h => ?_, fun h => ?_, fun h => ?_⟩, ?_, ?_, ?_, ?_⟩ <;>
    simp_all [setOptions, extend, defaultLogOptions, onlyColorize]

/-- Witness for C3: omitting every key leaves location information at
its default `true`. -/
theorem c3_witness :
    (setOptions emptyUserOptions initialState).logOptions.includeLocationInformation = true :=
  (c3_setOptions_merges_against_defaults emptyUserOptions initialState).1.1 rfl

/-- Claim C4: the console interceptor is an idempotent two-state
toggle: from any console-binding state, enable-enable-disable-disable
ends in the same bindings as enable-disable; an enable while already
redirected and a disable while native are no-ops. -/
theorem c4_console_toggle_idempotent (c : ConsoleState) :
    redirectConsole false (redirectConsole false (redirectConsole true (redirectConsole true c))) =
      redirectConsole false (redirectConsole true c) ∧
    (c.log ≠ defaultConsole.log → redirectConsole true c = c) ∧
    (c.log = defaultConsole.log → redirectConsole false c = c) := by
  refine ⟨?_, fun h => by simp [redirectConsole, h], fun h => by simp [redirectConsole, h]⟩
  by_cases h : c.log = defaultConsole.log
  · have h1 : redirectConsole true c = karlConsole := by
      simp [redirectConsole, h, karlConsole]
    rw [h1, show redirectConsole true karlConsole = karlConsole from by decide,
        show redirectConsole false karlConsole = defaultConsole from by decide,
        show redirectConsole false defaultConsole = defaultConsole from by decide]
  · have h1 : redirectConsole true c = c := by simp [redirectConsole, h]
    have h2 : redirectConsole false c = defaultConsole := by simp [redirectConsole, h]
    rw [h1, h1, h2, show redirectConsole false defaultConsole = defaultConsole from by decide]

/-- Witness for C4: disabling while the bindings are already native is
a no-op. -/
theorem c4_witness : redirectConsole false defaultConsole = defaultConsole :=
  (c4_console_toggle_idempotent defaultConsole).2.2 rfl

set_option maxRecDepth 10000 in
/-- Counterexample to claim C5: a concrete colorized WARN emission.
The deferred callback appends the newline before colorizing, so the
written string is yellow-start ++ line ++ newline ++ reset: its final
character is the `m` of the reset escape, not the newline — the reset
escape does not sit immediately before the trailing newline. -/
theorem c5_counterexample :
    runTask env0 colorState.logOptions (ScheduledTask.log c5Task) = Action.write c5Out ∧
    c5Out = "\u001b[33m" ++
      (jsonFormatter colorState.logOptions (eventOf env0 colorState.logOptions c5Task c5Frame)
        ++ "\n") ++ "\u001b[39m" ∧
    c5Out.data.getLast? = some 'm' ∧
    c5Out.data.getLast? ≠ some '\n' := by
  refine ⟨rfl, ?_, by decide, by decide⟩
  apply String.ext
  simp only [String.data_append, List.append_assoc]
  rfl

/-- Claim C5 as amended: with `colorize: true`, every WARN emission is
the newline-terminated formatted line wrapped in the yellow start and
reset escapes (the reset escape follows the newline), while every INFO
emission is the bare formatted line plus newline — the colorizer adds
no escape, so the INFO output contains an escape character only if the
formatted line itself does. -/
theorem c5_colorize_wraps_entire_line (env : Env) (opts : LogOptions) (t : DeferredTask)
    (caller : CallSite) (hc : opts.colorize = true) :
    (t.level = "WARN" → renderTask env opts t caller =
      "\u001b[33m" ++ (t.format opts (eventOf env opts t caller) ++ "\n") ++ "\u001b[39m") ∧
    (t.level = "INFO" → renderTask env opts t caller =
      t.format opts (eventOf env opts t caller) ++ "\n") ∧
    (t.level = "INFO" → '\u001b' ∉ (t.format opts (eventOf env opts t caller)).data →
      '\u001b' ∉ (renderTask env opts t caller).data) := by
  have hinfo : ∀ h : t.level = "INFO", renderTask env opts t caller =
      t.format opts (eventOf env opts t caller) ++ "\n" := by
    intro h
    simp [renderTask, hc, h, logColors]
  refine ⟨fun hw => ?_, hinfo, fun hi hesc => ?_⟩
  · simp only [renderTask, hc, if_true, hw, logColors, colorsColorize,
      reduceIte, String.reduceEq]
    apply String.ext
    simp only [String.data_append, List.append_assoc]
    rfl
  · rw [hinfo hi]
    intro hmem
    rw [String.data_append] at hmem
    rcases List.mem_append.mp hmem with h | h
    · exact hesc h
    · simp at h

/-- Witness for C5 (amended): the concrete colorized WARN emission has
exactly the wrapped shape. -/
theorem c5_witness :
    renderTask env0 colorState.logOptions c5Task c5Frame =
      "\u001b[33m" ++
        (c5Task.format colorState.logOptions (eventOf env0 colorState.logOptions c5Task c5Frame)
          ++ "\n") ++ "\u001b[39m" :=
  (c5_colorize_wraps_entire_line env0 colorState.logOptions c5Task c5Frame rfl).1 rfl

set_option maxRecDepth 10000 in
/-- Counterexample to claim C6: the event emitted by a WARN call with
location capture disabled has `fileName`, `filePath` and `lineNumber`
null but `functionName` populated with the sentinel `<anonymous>` — so
the four call-site fields are neither all populated nor all null. -/
theorem c6_counterexample :
    runTask env0 noLocState.logOptions (ScheduledTask.log c6Task) =
      Action.write (jsonFormatter noLocState.logOptions c6Event ++ "\n") ∧
    ¬ ((c6Event.fileName.isSome = true ∧ c6Event.filePath.isSome = true ∧
        c6Event.lineNumber.isSome = true ∧ c6Event.functionName.isSome = true) ∨
       (c6Event.fileName = none ∧ c6Event.filePath = none ∧
        c6Event.lineNumber = none ∧ c6Event.functionName = none)) :=
  ⟨rfl, by decide⟩

/-- Claim C6 as amended: in every emitted event (absent an enrich
callback) `fileName` and `filePath` are both populated or both null —
they are both derived from the frame's file name — while `functionName`
is always populated, defaulting to the sentinel `<anonymous>`; when the
trace is `dummyTrace` (location capture disabled) the three file/line
fields are all null and `functionName` is exactly the sentinel. -/
theorem c6_location_fields_linkage (env : Env) (opts : LogOptions) (t : DeferredTask)
    (caller : CallSite) (he : opts.enrich = none) :
    ((eventOf env opts t caller).fileName.isSome =
      (eventOf env opts t caller).filePath.isSome) ∧
    (eventOf env opts t caller).functionName.isSome = true ∧
    (caller = dummyTrace →
      (eventOf env opts t caller).fileName = none ∧
      (eventOf env opts t caller).filePath = none ∧
      (eventOf env opts t caller).lineNumber = none ∧
      (eventOf env opts t caller).functionName = some "<anonymous>") := by
  have hev : eventOf env opts t caller = buildEvent env t caller := by
    simp [eventOf, he]
  rw [hev]
  refine ⟨?_, ?_, fun hd => ?_⟩
  · cases h : caller.fileName <;> simp [buildEvent, h]
  · simp [buildEvent]
  · subst hd
    simp [buildEvent, dummyTrace]

/-- Witness for C6 (amended): the location-disabled event evaluates to
all-null file/line fields with the sentinel function name. -/
theorem c6_witness :
    (eventOf env0 noLocState.logOptions c6Task dummyTrace).fileName = none ∧
    (eventOf env0 noLocState.logOptions c6Task dummyTrace).filePath = none ∧
    (eventOf env0 noLocState.logOptions c6Task dummyTrace).lineNumber = none ∧
    (eventOf env0 noLocState.logOptions c6Task dummyTrace).functionName = some "<anonymous>" :=
  (c6_location_fields_linkage env0 noLocState.logOptions c6Task dummyTrace rfl).2.2 rfl

/-- Claim C7 (refuted, code bug): when the call-site resolver returns
no frame, the synchronous part of the logging call still succeeds (one
task is enqueued), but the deferred callback dereferences the null
trace with `caller.getFileName()` and throws a TypeError instead of
emitting a degraded event — the drained queue contains a crash and no
write. -/
theorem c7_missing_frame_crashes_deferred_callback :
    (logCall "INFO" none "2015-08-02T18:02:39.456Z" [JsVal.str "test"]
      initialState).queue.length = 1 ∧
    drain env0 initialState.logOptions
      (logCall "INFO" none "2015-08-02T18:02:39.456Z" [JsVal.str "test"] initialState) =
      [Action.crash "TypeError: cannot read getFileName of null"] ∧
    (∀ m, Action.crash "TypeError: cannot read getFileName of null" ≠ Action.write m) :=
  ⟨rfl, rfl, fun m => by simp⟩

/-- Claim C8: `getFormatter` is a total two-valued selection —
`jsonFormatter` exactly when `options.json` is true, `textFormatter`
exactly when it is false, and nothing else is representable; in every
reachable module state with `json: false` the formatter a log call
captures is `textFormatter`; and `textFormatter` produces exactly the
documented line layouts with and without location information. -/
theorem c8_formatter_selection_and_layout :
    (∀ opts : LogOptions, getFormatter opts = jsonFormatter ∨ getFormatter opts = textFormatter) ∧
    (∀ opts : LogOptions, opts.json = true → getFormatter opts = jsonFormatter) ∧
    (∀ opts : LogOptions, opts.json = false → getFormatter opts = textFormatter) ∧
    (∀ s : KarlState, Reachable s → s.logOptions.json = false →
      s.currentFormatter.getD defaultFormatter = textFormatter) ∧
    (∀ (opts : LogOptions) (e : LogEvent) (f p n : String) (l : Nat),
      opts.includeLocationInformation = true →
      e.functionName = some f → e.filePath = some p → e.fileName = some n →
      e.lineNumber = some l →
      textFormatter opts e =
        "[" ++ e.level ++ "] " ++ e.timestamp ++ " - " ++ e.hostName ++ " - " ++
        e.process.name ++ "[" ++ f ++ "@" ++ p ++ "/" ++ n ++ "(" ++ toString l ++ ")]: " ++
        e.message) ∧
    (∀ (opts : LogOptions) (e : LogEvent),
      opts.includeLocationInformation = false →
      textFormatter opts e =
        "[" ++ e.level ++ "] " ++ e.timestamp ++ " - " ++ e.hostName ++ " - " ++
        e.process.name ++ ": " ++ e.message) := by
  refine ⟨?_, ?_, ?_, ?_, ?_, ?_⟩
  · intro opts
    by_cases h : opts.json <;> simp [getFormatter, h]
  · intro opts h; simp [getFormatter, h]
  · intro opts h; simp [getFormatter, h]
  · intro s hs h
    rw [reachable_formatter hs, getFormatter, h]
    simp
  · intro opts e f p n l hloc hf hp hn hl
    simp only [textFormatter, hloc, hf, hp, hn, hl, optJs, optNumJs,
      utilFormat, runFormat, jsToStr, jsToNum, String.join, if_true,
      List.map_nil, List.foldl_nil]
    apply String.ext
    simp only [String.data_append, List.append_assoc, List.append_nil]
    rfl
  · intro opts e hloc
    simp only [textFormatter, hloc, utilFormat, runFormat, jsToStr, String.join,
      Bool.false_eq_true, if_false, List.map_nil, List.foldl_nil]
    apply String.ext
    simp only [String.data_append, List.append_assoc, List.append_nil]
    rfl

/-- Witness for C8: after reconfiguring with `json: false` the captured
formatter of the reachable state is the text formatter. -/
theorem c8_witness :
    (setOptions { json := some false } initialState).currentFormatter.getD defaultFormatter =
      textFormatter :=
  c8_formatter_selection_and_layout.2.2.2.1 (setOptions { json := some false } initialState)
    (Reachable.reconfig { json := some false } Reachable.init) rfl

/-- Claim C9: the uncaught-exception handler enqueues the FATAL
emission first and the self-SIGINT on a strictly later queue position,
so FIFO draining performs the write before the kill; the scheduled task
is FATAL-level and its event's message is the `util.format` expansion
of `("UncaughtException: ", err.stack)` — it starts with the literal
`UncaughtException: ` and ends with the error's stack trace. -/
theorem c9_fatal_write_scheduled_before_sigint (env : Env) (s : KarlState)
    (errStack ts : String) (frame : Option CallSite)
    (hq : s.queue = [])
    (hf : s.logOptions.includeLocationInformation = false ∨ frame.isSome = true) :
    (∃ m, drain env s.logOptions (uncaughtHandler errStack frame ts s) =
      [Action.write m, Action.kill "SIGINT"]) ∧
    (mkTask s.logOptions s.currentFormatter "FATAL" frame ts (fatalArgsFor errStack)).level
      = "FATAL" ∧
    (∃ rest, fatalMessage errStack = "UncaughtException: " ++ rest) ∧
    (∃ front, fatalMessage errStack = front ++ errStack) ∧
    (∀ caller : CallSite, s.logOptions.enrich = none →
      (eventOf env s.logOptions
        (mkTask s.logOptions s.currentFormatter "FATAL" frame ts (fatalArgsFor errStack))
        caller).message = fatalMessage errStack) := by
  have hmsg : fatalMessage errStack = "UncaughtException: " ++ (" " ++ errStack) := by
    simp only [fatalMessage, utilFormatArgs, fatalArgsFor, utilFormat, runFormat, jsToStr,
      String.join]
    rfl
  refine ⟨?_, rfl, ⟨" " ++ errStack, hmsg⟩, ⟨"UncaughtException:  ", ?_⟩, fun caller he => ?_⟩
  · obtain ⟨caller, hcaller⟩ := Option.isSome_iff_exists.mp
      (mkTask_trace_isSome s.logOptions s.currentFormatter "FATAL" frame ts
        (fatalArgsFor errStack) hf)
    refine ⟨renderTask env s.logOptions
      (mkTask s.logOptions s.currentFormatter "FATAL" frame ts (fatalArgsFor errStack))
      caller, ?_⟩
    simp only [drain, uncaughtHandler, logCall_queue]
    rw [hq]
    simp [runTask, runLogTask, hcaller]
  · rw [hmsg]
    apply String.ext
    simp only [String.data_append, List.append_assoc]
    rfl
  · simp [eventOf, he, buildEvent, fatalMessage, mkTask]

/-- Witness for C9: a concrete uncaught exception yields exactly one
write followed by the SIGINT. -/
theorem c9_witness :
    ∃ m, drain env0 initialState.logOptions
      (uncaughtHandler "Error: boom" (some demoFrame) "2015-08-02T18:02:39.456Z" initialState) =
      [Action.write m, Action.kill "SIGINT"] :=
  (c9_fatal_write_scheduled_before_sigint env0 initialState "Error: boom"
    "2015-08-02T18:02:39.456Z" (some demoFrame) rfl (Or.inr rfl)).1

/-- Claim C10: the saved original binding for `console.debug` is the
original `console.log` function (it is set from `console.log` in the
`defaultConsole` literal and never overwritten by the copy loop), so
after a disable transition following any prior sequence of
enable/disable transitions from module load, `console.debug` is bound
to the original `console.log`. -/
theorem c10_debug_restored_to_original_log (ops : List Bool) :
    defaultConsole.debug = Binding.native "log" ∧
    (redirectConsole false
      (ops.foldl (fun st e => redirectConsole e st) initialState.console)).debug =
      Binding.native "log" := by
  refine ⟨rfl, ?_⟩
  have h0 : initialState.console = karlConsole ∨ initialState.console = defaultConsole :=
    Or.inl (by decide)
  rcases foldl_console_mem ops _ h0 with h | h <;> rw [h] <;> decide

end Karl
